import Mathlib

/-!
Verification development for the paper-trading engine of the `algo` repository.

The Python sources embedded here are `paper_trading_db.py` (the SQLite-backed
store: portfolio table, active positions table, trade-history table, and the
operations on them) and `app.py` (risk validation, trade execution, the
position monitor and the setup scanner).  Prices and monetary quantities are
Python floats in the source; they are modelled as exact rationals `ℚ`.
Timestamps are abstracted as natural numbers.  SQLite rows become Lean
structures, tables become lists, and each operation of the Python code becomes
a function from database state to database state.
-/

namespace Algo

/-- A row of the `portfolio` table (`paper_trading_db.py`, `init_database`).
The `id`, `created_at` and `updated_at` columns play no role in any claim and
are omitted. -/
structure Portfolio where
  user_id : String
  initial_value : ℚ
  current_value : ℚ
  total_pnl : ℚ
deriving Repr, DecidableEq

/-- A row of the `positions` table (active trades).  The `updated_at` column is
omitted; `created_at` is an abstract timestamp. -/
structure Position where
  id : Nat
  user_id : String
  symbol : String
  trade_type : String
  quantity : Int
  entry_price : ℚ
  current_price : ℚ
  stop_loss : ℚ
  target : ℚ
  strategy : String
  notes : String
  risk_amount : ℚ
  pnl : ℚ
  status : String
  created_at : Nat
deriving Repr, DecidableEq

/-- A row of the `trade_history` table (completed trades). -/
structure TradeHistory where
  id : Nat
  user_id : String
  symbol : String
  trade_type : String
  quantity : Int
  entry_price : ℚ
  exit_price : ℚ
  stop_loss : ℚ
  target : ℚ
  strategy : String
  notes : String
  risk_amount : ℚ
  pnl : ℚ
  exit_reason : String
  entry_time : Nat
  exit_time : Nat
deriving Repr, DecidableEq

/-- The visible database state: the three tables of `init_database`. -/
structure DBState where
  portfolios : List Portfolio
  positions : List Position
  history : List TradeHistory
deriving Repr, DecidableEq

/-- The state of a freshly initialised database: all tables empty. -/
def DBState.empty : DBState := ⟨[], [], []⟩

/-- Python `str.upper()`: upper-case every character. -/
def pyUpper (s : String) : String := ⟨s.data.map Char.toUpper⟩

/-- Whether the first list is an initial segment of the second. -/
def leadsList : List Char → List Char → Bool
  | [], _ => true
  | _ :: _, [] => false
  | a :: as, b :: bs => a == b && leadsList as bs

/-- Whether the first list occurs as a contiguous sublist of the second. -/
def occursList (needle : List Char) : List Char → Bool
  | [] => needle.isEmpty
  | b :: bs => leadsList needle (b :: bs) || occursList needle bs

/-- Python `needle in hay` on strings: contiguous-substring membership. -/
def pyIn (needle hay : String) : Bool := occursList needle.data hay.data

/-- `PaperTradingDB.get_or_create_portfolio` (paper_trading_db.py L82-113):
`SELECT * FROM portfolio WHERE user_id = ?` and, when no row comes back,
`INSERT INTO portfolio (user_id, initial_value, current_value, total_pnl)
VALUES (?, 100000, 100000, 0)`.  Returns the row together with the state after
the call (the insert, when it happens, is committed). -/
def get_or_create_portfolio (st : DBState) (uid : String) : Portfolio × DBState :=
  match st.portfolios.find? (fun p => p.user_id == uid) with
  | some p => (p, st)
  | none =>
      let p : Portfolio := ⟨uid, 100000, 100000, 0⟩
      (p, { st with portfolios := st.portfolios ++ [p] })

/-- `PaperTradingDB.get_active_positions` (paper_trading_db.py L115-129):
`SELECT * FROM positions WHERE user_id = ? AND status = 'ACTIVE'`.  The
`ORDER BY created_at DESC` clause is abstracted away: every claim below only
looks at membership and length of the result. -/
def get_active_positions (st : DBState) (uid : String) : List Position :=
  st.positions.filter (fun p => p.user_id == uid && p.status == "ACTIVE")

/-- `PaperTradingDB._update_portfolio_pnl` (paper_trading_db.py L312-320):
`UPDATE portfolio SET total_pnl = total_pnl + ?, current_value =
initial_value + total_pnl + ? WHERE user_id = ?`.  SQLite evaluates the
right-hand sides against the pre-update row, which the functional record
update reproduces exactly. -/
def update_portfolio_pnl (st : DBState) (uid : String) (pnl_change : ℚ) : DBState :=
  { st with portfolios := st.portfolios.map (fun pf =>
      if pf.user_id == uid then
        { pf with total_pnl := pf.total_pnl + pnl_change,
                  current_value := pf.initial_value + pf.total_pnl + pnl_change }
      else pf) }

/-- Result of `PaperTradingDB.close_position`: the Python dict
`(success = True, pnl)` or `(success = False, error)`. -/
inductive CloseResult where
  | ok (pnl : ℚ)
  | err (msg : String)
deriving Repr, DecidableEq

/-- The signed P&L computed by `PaperTradingDB.close_position`
(paper_trading_db.py L200-204): `(exit - entry) * quantity` when
`trade_type.upper() == 'BUY'`, else `(entry - exit) * quantity`. -/
def close_pnl (pos : Position) (exit_price : ℚ) : ℚ :=
  if pyUpper pos.trade_type == "BUY" then
    (exit_price - pos.entry_price) * (pos.quantity : ℚ)
  else
    (pos.entry_price - exit_price) * (pos.quantity : ℚ)

/-- The trade-history row inserted by `PaperTradingDB.close_position`
(paper_trading_db.py L206-229): same `id`, `entry_time` set to the position's
`created_at`, `exit_time` defaulting to the current timestamp. -/
def close_history_row (pos : Position) (uid : String) (exit_price pnl : ℚ)
    (exit_reason : String) (exit_time : Nat) : TradeHistory :=
  { id := pos.id, user_id := uid, symbol := pos.symbol,
    trade_type := pos.trade_type, quantity := pos.quantity,
    entry_price := pos.entry_price, exit_price := exit_price,
    stop_loss := pos.stop_loss, target := pos.target,
    strategy := pos.strategy, notes := pos.notes,
    risk_amount := pos.risk_amount, pnl := pnl,
    exit_reason := exit_reason, entry_time := pos.created_at,
    exit_time := exit_time }

/-- `PaperTradingDB.close_position` (paper_trading_db.py L185-243):
`SELECT * FROM positions WHERE id = ? AND user_id = ?`; when no row exists,
return `Position not found` with nothing written.  Otherwise compute the
signed pnl, insert the history row, `DELETE FROM positions WHERE id = ? AND
user_id = ?`, run `_update_portfolio_pnl`, and commit. -/
def close_position (st : DBState) (uid : String) (position_id : Nat)
    (exit_price : ℚ) (exit_reason : String) (exit_time : Nat) :
    CloseResult × DBState :=
  match st.positions.find? (fun p => p.id == position_id && p.user_id == uid) with
  | none => (.err "Position not found", st)
  | some pos =>
      let pnl := close_pnl pos exit_price
      let st1 : DBState :=
        { st with
          history := st.history ++
            [close_history_row pos uid exit_price pnl exit_reason exit_time],
          positions := st.positions.filter
            (fun p => !(p.id == position_id && p.user_id == uid)) }
      (.ok pnl, update_portfolio_pnl st1 uid pnl)

/-- `PaperTradingDB.execute_trade` (paper_trading_db.py L148-183): insert a
new row into `positions` with `current_price` initialised to the entry price,
`pnl` defaulting to 0 and `status` defaulting to `ACTIVE`. -/
def execute_trade_db (st : DBState) (uid : String) (trade_id : Nat)
    (symbol type_ : String) (quantity : Int) (entryPrice stopLoss target : ℚ)
    (strategy notes : String) (riskAmount : ℚ) (created : Nat) : DBState :=
  { st with positions := st.positions ++
      [{ id := trade_id, user_id := uid, symbol := symbol, trade_type := type_,
         quantity := quantity, entry_price := entryPrice,
         current_price := entryPrice, stop_loss := stopLoss, target := target,
         strategy := strategy, notes := notes, risk_amount := riskAmount,
         pnl := 0, status := "ACTIVE", created_at := created }] }

/-- A row as returned by `PaperTradingDB.get_symbol_trades`
(paper_trading_db.py L273-310): the concatenation of active-position dicts
(built by `_position_to_dict`) and trade-history dicts (built by
`_trade_history_to_dict`).  The two dict shapes have different key sets, which
matters below. -/
inductive SymTrade where
  | act (p : Position)
  | hist (t : TradeHistory)
deriving Repr, DecidableEq

/-- Python `t['status']` / `t.get('status')` on a `get_symbol_trades` row.
`_position_to_dict` (paper_trading_db.py L322-341) defines a `status` key;
`_trade_history_to_dict` (L343-362) does not, so the lookup on a history dict
yields nothing (a subscript raises `KeyError`). -/
def SymTrade.getStatus : SymTrade → Option String
  | .act p => some p.status
  | .hist _ => none

/-- Python `t.get('exitReason')` on a `get_symbol_trades` row.  Neither
`_position_to_dict` nor `_trade_history_to_dict` defines a key spelled
`exitReason` (the history dict spells it `exit_reason`), so the lookup yields
nothing on both row shapes. -/
def SymTrade.getExitReason : SymTrade → Option String
  | .act _ => none
  | .hist _ => none

/-- `PaperTradingDB.get_symbol_trades` (paper_trading_db.py L273-310): active
positions for the user and symbol followed by history rows for the user and
symbol, each filtered by strategy only when the strategy string is truthy
(non-empty).  The `ORDER BY exit_time DESC` on the history part is abstracted
away; the callers below only filter and count. -/
def get_symbol_trades (st : DBState) (uid symbol strategy : String) :
    List SymTrade :=
  let actives :=
    if strategy != "" then
      st.positions.filter (fun p =>
        p.user_id == uid && p.symbol == symbol && p.strategy == strategy)
    else
      st.positions.filter (fun p => p.user_id == uid && p.symbol == symbol)
  let histRows :=
    if strategy != "" then
      st.history.filter (fun t =>
        t.user_id == uid && t.symbol == symbol && t.strategy == strategy)
    else
      st.history.filter (fun t => t.user_id == uid && t.symbol == symbol)
  actives.map .act ++ histRows.map .hist

/-- `is_index_symbol` (app.py L976-979): true when one of NIFTY, BANKNIFTY,
FINNIFTY, MIDCPNIFTY occurs as a substring of the upper-cased symbol. -/
def is_index_symbol (symbol : String) : Bool :=
  ["NIFTY", "BANKNIFTY", "FINNIFTY", "MIDCPNIFTY"].any
    (fun ix => pyIn ix (pyUpper symbol))

/-- The rejection reasons `validate_trade_risk` (app.py L910-969) can produce.
`keyError k` stands for the generic `Risk validation error` message produced
by the enclosing `except` block when a dict subscript on key `k` raises. -/
inductive RiskReason where
  | indexLimit (symbol : String)
  | riskCap (risk_amount max_risk : ℚ)
  | positionLimit
  | keyError (key : String)
deriving Repr, DecidableEq

/-- Result of `validate_trade_risk`: the dict `(valid = True)` or
`(valid = False, error)`. -/
inductive RiskResult where
  | valid
  | invalid (reason : RiskReason)
deriving Repr, DecidableEq

/-- A candidate trade as seen by `validate_trade_risk` and
`execute_paper_trade`: the `trade_data` dict after the api layer has checked
the six required keys.  `strategy` and `notes` remain optional — the code
reads them with `.get` and two different defaults. -/
structure Candidate where
  symbol : String
  type_ : String
  quantity : Int
  entryPrice : ℚ
  stopLoss : ℚ
  target : ℚ
  strategy : Option String
  notes : Option String
deriving Repr, DecidableEq

/-- The list comprehension `[t for t in existing_trades if t['status'] ==
'ACTIVE']` (app.py L922).  The comprehension subscripts every element, so it
raises `KeyError` (modelled as `none`) as soon as the list holds any history
dict, which lacks the `status` key. -/
def filterStatusACTIVE : List SymTrade → Option (List SymTrade)
  | [] => some []
  | t :: ts =>
      match t.getStatus with
      | none => none
      | some s =>
          match filterStatusACTIVE ts with
          | none => none
          | some rest => some (if s == "ACTIVE" then t :: rest else rest)

/-- Rule 1 of `validate_trade_risk` (app.py L919-927): for strategy
`One Hour Setup` on an index symbol, count the ACTIVE rows among the
symbol+strategy trades and reject at 2 or more.  The count raises `KeyError`
when any history row is present (no `status` key), which the enclosing
`except` turns into a generic risk-validation error. -/
def rule1_index_cap (existing : List SymTrade) (symbol strategy : String) :
    Option RiskReason :=
  if strategy == "One Hour Setup" && is_index_symbol symbol then
    match filterStatusACTIVE existing with
    | none => some (.keyError "status")
    | some actives =>
        if actives.length ≥ 2 then some (.indexLimit symbol) else none
  else none

/-- Rule 2 of `validate_trade_risk` (app.py L929-941): filter the
symbol+strategy trades by `t.get('exitReason') == 'STOP_LOSS'`.  No row shape
carries an `exitReason` key, so the filter is always empty and the rule can
never reject.  Had the filter matched anything, the loop body would subscript
`trade['timestamp']` — another key no row shape carries — and raise. -/
def rule2_same_day_sl (existing : List SymTrade) : Option RiskReason :=
  match existing.filter (fun t => t.getExitReason == some "STOP_LOSS") with
  | [] => none
  | _ :: _ => some (.keyError "timestamp")

/-- Rule 3 of `validate_trade_risk` (app.py L943-956): `risk_amount =
abs(entry - stop) * quantity`, rejected when it strictly exceeds 2% of the
portfolio current value. -/
def rule3_risk_cap (c : Candidate) (portfolio_value : ℚ) : Option RiskReason :=
  let risk_amount := |c.entryPrice - c.stopLoss| * (c.quantity : ℚ)
  let max_risk := portfolio_value * (2 / 100)
  if risk_amount > max_risk then some (.riskCap risk_amount max_risk) else none

/-- Rule 4 of `validate_trade_risk` (app.py L958-964): reject when the user
already has 5 or more ACTIVE positions across all symbols. -/
def rule4_position_cap (active : List Position) : Option RiskReason :=
  if active.length ≥ 5 then some .positionLimit else none

/-- `validate_trade_risk` (app.py L910-969), rules in source order.  Rule 3
reads the portfolio through `get_portfolio_data`, whose
`get_or_create_portfolio` call commits a fresh 100000-portfolio when the user
has none — that insert persists even when a later rule rejects, so the state
is threaded from rule 3 on. -/
def validate_trade_risk (st : DBState) (uid : String) (c : Candidate) :
    RiskResult × DBState :=
  let strategy := c.strategy.getD ""
  let existing := get_symbol_trades st uid c.symbol strategy
  match rule1_index_cap existing c.symbol strategy with
  | some r => (.invalid r, st)
  | none =>
      match rule2_same_day_sl existing with
      | some r => (.invalid r, st)
      | none =>
          let pv := get_or_create_portfolio st uid
          match rule3_risk_cap c pv.1.current_value with
          | some r => (.invalid r, pv.2)
          | none =>
              match rule4_position_cap (get_active_positions pv.2 uid) with
              | some r => (.invalid r, pv.2)
              | none => (.valid, pv.2)

/-- Outcome of the trade-execution pipeline: the api error for a missing
required field, a risk rejection surfaced verbatim, or success with the new
trade id. -/
inductive ExecResult where
  | ok (tradeId : Nat)
  | riskRejected (reason : RiskReason)
  | missingField (field : String)
deriving Repr, DecidableEq

/-- `execute_paper_trade` (app.py L871-908): run the risk validator; on
rejection surface its reason; on acceptance compute `risk_amount =
abs(entry - stop) * quantity` and insert the position via
`PaperTradingDB.execute_trade` (strategy defaulting to `Manual`, notes to the
empty string).  The fresh uuid and the row timestamp are supplied as
parameters. -/
def execute_paper_trade (st : DBState) (uid : String) (c : Candidate)
    (newId time : Nat) : ExecResult × DBState :=
  let v := validate_trade_risk st uid c
  match v.1 with
  | .invalid r => (.riskRejected r, v.2)
  | .valid =>
      let risk_amount := |c.entryPrice - c.stopLoss| * (c.quantity : ℚ)
      (.ok newId,
        execute_trade_db v.2 uid newId c.symbol c.type_ c.quantity
          c.entryPrice c.stopLoss c.target (c.strategy.getD "Manual")
          (c.notes.getD "") risk_amount time)

/-- The JSON body of a trade-execution request: every field may be absent. -/
structure TradeRequest where
  symbol : Option String
  type_ : Option String
  quantity : Option Int
  entryPrice : Option ℚ
  stopLoss : Option ℚ
  target : Option ℚ
  strategy : Option String
  notes : Option String
deriving Repr, DecidableEq

/-- The `required_fields` list of `api_paper_trading_execute`
(app.py L795). -/
def required_fields : List String :=
  ["symbol", "type", "quantity", "entryPrice", "stopLoss", "target"]

/-- Python `field in data` for a trade-request body. -/
def TradeRequest.hasField (d : TradeRequest) : String → Bool
  | "symbol" => d.symbol.isSome
  | "type" => d.type_.isSome
  | "quantity" => d.quantity.isSome
  | "entryPrice" => d.entryPrice.isSome
  | "stopLoss" => d.stopLoss.isSome
  | "target" => d.target.isSome
  | "strategy" => d.strategy.isSome
  | "notes" => d.notes.isSome
  | _ => false

/-- The candidate handed to `execute_paper_trade` once the six required keys
are known to be present; the defaults are never read on that path. -/
def TradeRequest.toCandidate (d : TradeRequest) : Candidate :=
  { symbol := d.symbol.getD "", type_ := d.type_.getD "",
    quantity := d.quantity.getD 0, entryPrice := d.entryPrice.getD 0,
    stopLoss := d.stopLoss.getD 0, target := d.target.getD 0,
    strategy := d.strategy, notes := d.notes }

/-- `api_paper_trading_execute` (app.py L786-809): reject with
`Missing field: f` on the first required key absent from the body, otherwise
run `execute_paper_trade`.  No positivity or well-formedness check beyond key
presence exists on this path. -/
def api_paper_trading_execute (st : DBState) (uid : String) (d : TradeRequest)
    (newId time : Nat) : ExecResult × DBState :=
  match required_fields.find? (fun f => !(d.hasField f)) with
  | some f => (.missingField f, st)
  | none => execute_paper_trade st uid d.toCandidate newId time

/-- `PaperTradingDB.update_position_price` (paper_trading_db.py L259-271):
`UPDATE positions SET current_price = ? WHERE id = ? AND status =
'ACTIVE'`. -/
def update_position_price (st : DBState) (position_id : Nat)
    (current_price : ℚ) : DBState :=
  { st with positions := st.positions.map (fun p =>
      if p.id == position_id && p.status == "ACTIVE" then
        { p with current_price := current_price }
      else p) }

/-- Exit decision of the position monitor. -/
inductive ExitCheck where
  | stopLossHit
  | targetHit
  | hold
deriving Repr, DecidableEq

/-- The stop-loss / target test of `api_update_position_prices`
(app.py L1372-1390): for a BUY position, stop-loss at `price <= stop_loss`,
else target at `price >= target`; for any other side (the `else` branch,
i.e. SELL), stop-loss at `price >= stop_loss`, else target at
`price <= target`.  The `elif` gives the stop-loss branch priority when both
levels are breached. -/
def check_exit (trade_type : String) (current_price stop_loss target : ℚ) :
    ExitCheck :=
  if pyUpper trade_type == "BUY" then
    if current_price ≤ stop_loss then .stopLossHit
    else if current_price ≥ target then .targetHit
    else .hold
  else
    if current_price ≥ stop_loss then .stopLossHit
    else if current_price ≤ target then .targetHit
    else .hold

/-- One iteration of the loop of `api_update_position_prices`
(app.py L1352-1392) for a position with a freshly fetched price: write the
price back, then close with reason `STOP_LOSS` or `TARGET` when the
corresponding level is breached (stop-loss first). -/
def monitor_position (st : DBState) (uid : String) (pos : Position)
    (price : ℚ) (time : Nat) : DBState :=
  let st1 := update_position_price st pos.id price
  match check_exit pos.trade_type price pos.stop_loss pos.target with
  | .stopLossHit => (close_position st1 uid pos.id price "STOP_LOSS" time).2
  | .targetHit => (close_position st1 uid pos.id price "TARGET" time).2
  | .hold => st1

/-- `determine_close_strength` (app.py L609-663) on the previous day's
candle.  When the candle has zero range the direction alone decides between
`Strong Bullish`, `Strong Bearish` and `Neutral`.  Otherwise the body and
change percentages grade the candle; a zero open makes the change-percent
division raise `ZeroDivisionError`, which the enclosing `except` turns into
`Neutral`. -/
def determine_close_strength (open_price close_price high_price low_price : ℚ) :
    String :=
  let body_size := |close_price - open_price|
  let total_range := high_price - low_price
  if total_range = 0 then
    if close_price > open_price then "Strong Bullish"
    else if close_price < open_price then "Strong Bearish"
    else "Neutral"
  else if open_price = 0 then "Neutral"
  else
    let body_percentage := body_size / total_range * 100
    let price_change_percent := |(close_price - open_price) / open_price| * 100
    if body_percentage > 50 ∨ price_change_percent > 2 then
      if close_price > open_price then "Strong Bullish" else "Strong Bearish"
    else if body_percentage > 30 ∨ price_change_percent > 1 then
      if close_price > open_price then "Bullish" else "Bearish"
    else "Neutral"

/-- Injection points for a persistence failure inside the
`close_position` transaction: the history insert, the positions delete, the
portfolio update, or the final commit. -/
inductive CloseFail where
  | insertFail
  | deleteFail
  | portfolioFail
  | commitFail
deriving Repr, DecidableEq

/-- `PaperTradingDB.close_position` with an injected persistence failure.
All writes of the Python function go through one sqlite connection whose
single `conn.commit()` sits after the last write; an exception anywhere in
the `try` block is caught, the commit never runs, and the uncommitted
transaction is rolled back — so the visible state returned on any failure is
the input state, while the pending writes (`pending1`..`pending3`) are
discarded.  `close_position_tx st .. none` is the failure-free run. -/
def close_position_tx (st : DBState) (uid : String) (position_id : Nat)
    (exit_price : ℚ) (exit_reason : String) (exit_time : Nat)
    (failAt : Option CloseFail) : CloseResult × DBState :=
  match st.positions.find? (fun p => p.id == position_id && p.user_id == uid) with
  | none => (.err "Position not found", st)
  | some pos =>
      let pnl := close_pnl pos exit_price
      let pending1 : DBState :=
        { st with history := st.history ++
            [close_history_row pos uid exit_price pnl exit_reason exit_time] }
      if failAt = some .insertFail then (.err "insert failed", st) else
      let pending2 : DBState :=
        { pending1 with positions := (pending1.positions.filter
            (fun p => !(p.id == position_id && p.user_id == uid))) }
      if failAt = some .deleteFail then (.err "delete failed", st) else
      let pending3 := update_portfolio_pnl pending2 uid pnl
      if failAt = some .portfolioFail then (.err "portfolio update failed", st) else
      if failAt = some .commitFail then (.err "commit failed", st) else
      (.ok pnl, pending3)

/-- An externally triggered operation on the engine: a trade-execution
request or a position close (manual via `api_paper_trading_close`, or from
the monitor with reason STOP_LOSS / TARGET). -/
inductive Event where
  | execute (uid : String) (d : TradeRequest) (newId time : Nat)
  | close (uid : String) (position_id : Nat) (exit_price : ℚ)
      (reason : String) (time : Nat)
deriving Repr, DecidableEq

/-- Apply one operation to the database state. -/
def apply_event (st : DBState) : Event → DBState
  | .execute uid d newId time => (api_paper_trading_execute st uid d newId time).2
  | .close uid pid xp reason time => (close_position st uid pid xp reason time).2

/-- Apply a sequence of operations to the database state. -/
def apply_events (st : DBState) (evs : List Event) : DBState :=
  evs.foldl apply_event st

/-- The portfolio accounting identity: every portfolio row satisfies
`current_value = initial_value + total_pnl`. -/
def portfolio_invariant (st : DBState) : Prop :=
  ∀ pf ∈ st.portfolios, pf.current_value = pf.initial_value + pf.total_pnl

/-! Concrete sample data used by the witness and counterexample theorems. -/

/-- A sample ACTIVE BUY position: entry 100, stop 95, target 110, qty 10. -/
def posA : Position :=
  { id := 1, user_id := "u", symbol := "TCS", trade_type := "BUY",
    quantity := 10, entry_price := 100, current_price := 100, stop_loss := 95,
    target := 110, strategy := "Manual", notes := "", risk_amount := 50,
    pnl := 0, status := "ACTIVE", created_at := 7 }

/-- A sample ACTIVE SELL position: entry 100, stop 105, target 90, qty 10. -/
def posS : Position :=
  { id := 2, user_id := "u", symbol := "INFY", trade_type := "SELL",
    quantity := 10, entry_price := 100, current_price := 100, stop_loss := 105,
    target := 90, strategy := "Manual", notes := "", risk_amount := 50,
    pnl := 0, status := "ACTIVE", created_at := 8 }

/-- A small ACTIVE position on a given symbol with a given id, used to fill a
user's book. -/
def mkPos (i : Nat) (sym : String) : Position :=
  { id := i, user_id := "u", symbol := sym, trade_type := "BUY",
    quantity := 1, entry_price := 10, current_price := 10, stop_loss := 9,
    target := 12, strategy := "Manual", notes := "", risk_amount := 1,
    pnl := 0, status := "ACTIVE", created_at := i }

/-- State holding the portfolio of user `u` and the single position `posA`. -/
def stC3 : DBState := ⟨[⟨"u", 100000, 100000, 0⟩], [posA], []⟩

/-- A candidate with risk 50 on TCS: entry 100, stop 95, qty 10. -/
def candSmall : Candidate :=
  { symbol := "TCS", type_ := "BUY", quantity := 10, entryPrice := 100,
    stopLoss := 95, target := 110, strategy := none, notes := none }

/-- A candidate with risk 10000 on TCS: entry 100, stop 0, qty 100. -/
def candBig : Candidate :=
  { symbol := "TCS", type_ := "BUY", quantity := 100, entryPrice := 100,
    stopLoss := 0, target := 110, strategy := none, notes := none }

/-- Five ACTIVE positions for user `u` on five symbols. -/
def stFive : DBState :=
  ⟨[], [mkPos 1 "AAA", mkPos 2 "BBB", mkPos 3 "CCC", mkPos 4 "DDD",
        mkPos 5 "EEE"], []⟩

/-- A trade-history row for TCS whose exit reason is STOP_LOSS and whose exit
time is the current day (day 0). -/
def histSL : TradeHistory :=
  { id := 11, user_id := "u", symbol := "TCS", trade_type := "BUY",
    quantity := 10, entry_price := 100, exit_price := 95, stop_loss := 95,
    target := 110, strategy := "Manual", notes := "", risk_amount := 50,
    pnl := -50, exit_reason := "STOP_LOSS", entry_time := 0, exit_time := 0 }

/-- State for the same-day stop-loss scenario: no active positions, one
STOP_LOSS history row for TCS exited today. -/
def stC2 : DBState := ⟨[], [], [histSL]⟩

/-- A closed One Hour Setup trade on an index symbol (exited manually). -/
def histNifty : TradeHistory :=
  { id := 12, user_id := "u", symbol := "NSE:NIFTY50-INDEX",
    trade_type := "BUY", quantity := 1, entry_price := 100, exit_price := 101,
    stop_loss := 99, target := 102, strategy := "One Hour Setup", notes := "",
    risk_amount := 1, pnl := 1, exit_reason := "MANUAL", entry_time := 0,
    exit_time := 0 }

/-- State for the index-concentration scenario: no active positions, one
closed One Hour Setup trade on the index symbol. -/
def stC5 : DBState := ⟨[], [], [histNifty]⟩

/-- A small One Hour Setup candidate on the index symbol. -/
def candNifty : Candidate :=
  { symbol := "NSE:NIFTY50-INDEX", type_ := "BUY", quantity := 1,
    entryPrice := 100, stopLoss := 99, target := 102,
    strategy := some "One Hour Setup", notes := none }

/-- A complete trade-execution request whose quantity is zero. -/
def reqZeroQty : TradeRequest :=
  { symbol := some "TCS", type_ := some "BUY", quantity := some 0,
    entryPrice := some 100, stopLoss := some 95, target := some 110,
    strategy := none, notes := none }

/-- A trade-execution request missing the `target` field. -/
def reqNoTarget : TradeRequest :=
  { symbol := some "TCS", type_ := some "BUY", quantity := some 10,
    entryPrice := some 100, stopLoss := some 95, target := none,
    strategy := none, notes := none }

end Algo

namespace Algo

/-! Helper lemmas shared by the claim theorems. -/

lemma pyUpper_BUY : pyUpper "BUY" = "BUY" := by decide

lemma pyUpper_SELL : pyUpper "SELL" = "SELL" := by decide

lemma idx_TCS : is_index_symbol "TCS" = false := by decide

lemma idx_NIFTY : is_index_symbol "NSE:NIFTY50-INDEX" = true := by decide

/-- The index-concentration rule is skipped for any other strategy. -/
lemma rule1_skip (existing : List SymTrade) (symbol strategy : String)
    (h : (strategy == "One Hour Setup") = false) :
    rule1_index_cap existing symbol strategy = none := by
  simp [rule1_index_cap, h]

/-- No row shape returned by `get_symbol_trades` carries an `exitReason` key,
so the same-day stop-loss rule can never fire. -/
lemma rule2_always_none (existing : List SymTrade) :
    rule2_same_day_sl existing = none := by
  have h : existing.filter (fun t => t.getExitReason == some "STOP_LOSS") = [] := by
    induction existing with
    | nil => rfl
    | cons a as ih => cases a <;> simpa [SymTrade.getExitReason] using ih
  simp [rule2_same_day_sl, h]

/-- `get_or_create_portfolio` touches only the portfolio table. -/
lemma get_or_create_positions (st : DBState) (uid u2 : String) :
    get_active_positions (get_or_create_portfolio st uid).2 u2 =
      get_active_positions st u2 := by
  unfold get_or_create_portfolio
  split <;> rfl

/-- `update_portfolio_pnl` establishes the accounting identity on every row
it touches and keeps it on every row it leaves alone. -/
lemma portfolio_invariant_update_pnl (st : DBState) (uid : String) (p : ℚ)
    (h : portfolio_invariant st) :
    portfolio_invariant (update_portfolio_pnl st uid p) := by
  intro pf hpf
  simp only [update_portfolio_pnl, List.mem_map] at hpf
  obtain ⟨pf0, hmem, rfl⟩ := hpf
  by_cases hc : (pf0.user_id == uid) = true
  · simp only [if_pos hc]
    ring
  · simp only [if_neg hc]
    exact h pf0 hmem

/-- `get_or_create_portfolio` preserves the accounting identity: the fresh
row satisfies `100000 = 100000 + 0`. -/
lemma portfolio_invariant_get_or_create (st : DBState) (uid : String)
    (h : portfolio_invariant st) :
    portfolio_invariant (get_or_create_portfolio st uid).2 := by
  unfold get_or_create_portfolio
  split
  · exact h
  · intro pf hpf
    simp only [List.mem_append, List.mem_singleton] at hpf
    rcases hpf with hpf | hpf
    · exact h pf hpf
    · subst hpf
      norm_num

/-- `close_position` preserves the accounting identity. -/
lemma portfolio_invariant_close (st : DBState) (uid : String) (pid : Nat)
    (xp : ℚ) (reason : String) (t : Nat) (h : portfolio_invariant st) :
    portfolio_invariant (close_position st uid pid xp reason t).2 := by
  unfold close_position
  split
  · exact h
  · exact portfolio_invariant_update_pnl _ _ _ h

/-- `validate_trade_risk` preserves the accounting identity (its only write
is the lazy portfolio creation). -/
lemma portfolio_invariant_validate (st : DBState) (uid : String)
    (c : Candidate) (h : portfolio_invariant st) :
    portfolio_invariant (validate_trade_risk st uid c).2 := by
  simp only [validate_trade_risk]
  split
  · exact h
  · split
    · exact h
    · split
      · exact portfolio_invariant_get_or_create st uid h
      · split
        · exact portfolio_invariant_get_or_create st uid h
        · exact portfolio_invariant_get_or_create st uid h

/-- `execute_paper_trade` preserves the accounting identity (the position
insert does not touch the portfolio table). -/
lemma portfolio_invariant_execute (st : DBState) (uid : String)
    (c : Candidate) (newId time : Nat) (h : portfolio_invariant st) :
    portfolio_invariant (execute_paper_trade st uid c newId time).2 := by
  simp only [execute_paper_trade]
  split
  · exact portfolio_invariant_validate st uid c h
  · exact portfolio_invariant_validate st uid c h

/-- `api_paper_trading_execute` preserves the accounting identity. -/
lemma portfolio_invariant_api_execute (st : DBState) (uid : String)
    (d : TradeRequest) (newId time : Nat) (h : portfolio_invariant st) :
    portfolio_invariant (api_paper_trading_execute st uid d newId time).2 := by
  unfold api_paper_trading_execute
  split
  · exact h
  · exact portfolio_invariant_execute st uid d.toCandidate newId time h

/-- Every single operation preserves the accounting identity. -/
lemma portfolio_invariant_event (st : DBState) (e : Event)
    (h : portfolio_invariant st) : portfolio_invariant (apply_event st e) := by
  cases e with
  | execute uid d newId time => exact portfolio_invariant_api_execute st uid d newId time h
  | close uid pid xp reason time => exact portfolio_invariant_close st uid pid xp reason time h

/-- Invariant preservation along any sequence of operations. -/
lemma portfolio_invariant_events (evs : List Event) :
    ∀ st : DBState, portfolio_invariant st → portfolio_invariant (apply_events st evs) := by
  induction evs with
  | nil => intro st h; exact h
  | cons e es ih =>
      intro st h
      exact ih (apply_event st e) (portfolio_invariant_event st e h)

/-- `_update_portfolio_pnl` touches only the portfolio table. -/
lemma update_pnl_positions (st : DBState) (uid : String) (p : ℚ) :
    (update_portfolio_pnl st uid p).positions = st.positions := rfl

/-- `_update_portfolio_pnl` touches only the portfolio table. -/
lemma update_pnl_history (st : DBState) (uid : String) (p : ℚ) :
    (update_portfolio_pnl st uid p).history = st.history := rfl

/-- The failure-free transactional close coincides with `close_position`. -/
lemma close_position_tx_none (st : DBState) (uid : String) (pid : Nat)
    (xp : ℚ) (reason : String) (t : Nat) :
    close_position_tx st uid pid xp reason t none =
      close_position st uid pid xp reason t := by
  simp only [close_position_tx, close_position]
  cases hfind : st.positions.find? (fun p => p.id == pid && p.user_id == uid) <;>
    simp [hfind]

/-! The claim theorems. -/

/-- C1: for every user and every sequence of trade executions and position
closes, starting from a fresh database (portfolios created lazily with
`initial_value = current_value = 100000` and `total_pnl = 0`), every
portfolio row satisfies `current_value = initial_value + total_pnl` after
every operation — in particular after every committed close. -/
theorem portfolio_value_equals_initial_plus_pnl (evs : List Event) :
    portfolio_invariant (apply_events DBState.empty evs) :=
  portfolio_invariant_events evs DBState.empty
    (by intro pf hpf; simp [DBState.empty] at hpf)

/-- C2: the same-day stop-loss re-entry ban never fires.  With a TCS history
row whose `exit_reason` is STOP_LOSS and whose exit time is the current day,
a new TCS candidate passes risk validation, because the code filters on the
key `exitReason` while the history dicts spell it `exit_reason`. -/
theorem same_day_stop_loss_ban_never_fires :
    histSL.exit_reason = "STOP_LOSS" ∧ histSL.symbol = candSmall.symbol
    ∧ stC2.history = [histSL]
    ∧ (validate_trade_risk stC2 "u" candSmall).1 = .valid := by
  refine ⟨rfl, rfl, rfl, ?_⟩
  norm_num [validate_trade_risk, get_symbol_trades, rule1_index_cap,
    rule2_same_day_sl, rule3_risk_cap, rule4_position_cap,
    get_or_create_portfolio, get_active_positions, candSmall, stC2, histSL,
    SymTrade.getExitReason, idx_TCS]

/-- C3: closing an active position belonging to the user computes
`pnl = (exit - entry) * quantity` for a BUY and `(entry - exit) * quantity`
for a SELL, removes the position from the active set, and appends exactly one
trade-history record carrying the position's id and `entry_time` equal to its
`created_at`. -/
theorem close_position_moves_to_history (st : DBState) (uid : String)
    (pid : Nat) (xp : ℚ) (reason : String) (t : Nat) (pos : Position)
    (hfind : st.positions.find? (fun p => p.id == pid && p.user_id == uid) =
      some pos) :
    (pos.trade_type = "BUY" →
        (close_position st uid pid xp reason t).1 =
          .ok ((xp - pos.entry_price) * (pos.quantity : ℚ)))
    ∧ (pos.trade_type = "SELL" →
        (close_position st uid pid xp reason t).1 =
          .ok ((pos.entry_price - xp) * (pos.quantity : ℚ)))
    ∧ (∀ q ∈ (close_position st uid pid xp reason t).2.positions,
        ¬(q.id = pid ∧ q.user_id = uid))
    ∧ (∃ rec, (close_position st uid pid xp reason t).2.history =
          st.history ++ [rec]
        ∧ rec.id = pos.id ∧ rec.entry_time = pos.created_at) := by
  refine ⟨?_, ?_, ?_, ?_⟩
  · intro hb
    simp [close_position, hfind, close_pnl, hb, pyUpper_BUY]
  · intro hs
    simp [close_position, hfind, close_pnl, hs, pyUpper_SELL]
  · intro q hq
    simp only [close_position, hfind, update_pnl_positions] at hq
    simp only [List.mem_filter] at hq
    intro hcontra
    have := hq.2
    simp [hcontra.1, hcontra.2] at this
  · refine ⟨close_history_row pos uid xp (close_pnl pos xp) reason t, ?_, rfl, rfl⟩
    simp [close_position, hfind, update_pnl_history]

/-- C3 witness: closing the sample BUY position (entry 100, qty 10) at 110
yields pnl 100. -/
theorem close_position_moves_to_history_witness :
    posA.trade_type = "BUY"
    ∧ (close_position stC3 "u" 1 110 "MANUAL" 9).1 =
        .ok ((110 - posA.entry_price) * (posA.quantity : ℚ)) := by
  have h := close_position_moves_to_history stC3 "u" 1 110 "MANUAL" 9 posA
    (by norm_num [stC3, posA])
  exact ⟨rfl, h.1 rfl⟩

/-- C4 counterexample: a user with 5 ACTIVE positions submitting a candidate
whose risk amount (10000) exceeds the 2% cap (2000) is rejected with the
risk-cap reason, not the position-count reason — the risk rule is evaluated
first. -/
theorem position_cap_reason_counterexample :
    (get_active_positions stFive "u").length = 5
    ∧ (validate_trade_risk stFive "u" candBig).1 = .invalid (.riskCap 10000 2000)
    ∧ (validate_trade_risk stFive "u" candBig).1 ≠ .invalid .positionLimit := by
  have h1 : rule1_index_cap
      (get_symbol_trades stFive "u" candBig.symbol (candBig.strategy.getD ""))
      candBig.symbol (candBig.strategy.getD "") = none :=
    rule1_skip _ _ _ (by decide)
  have h3 : rule3_risk_cap candBig
      (get_or_create_portfolio stFive "u").1.current_value =
      some (.riskCap 10000 2000) := by
    norm_num [rule3_risk_cap, get_or_create_portfolio, stFive, candBig]
  have h2 : (validate_trade_risk stFive "u" candBig).1 = .invalid (.riskCap 10000 2000) := by
    simp only [validate_trade_risk, h1, rule2_always_none, h3]
  refine ⟨?_, h2, ?_⟩
  · norm_num [get_active_positions, stFive, mkPos]
  · rw [h2]
    simp

/-- C4 amended: a candidate submitted by a user with 5 or more ACTIVE
positions is rejected with the position-count reason provided no earlier rule
fires — in particular provided its risk amount is within the 2% cap (the
risk-cap rule is evaluated before the position-count rule). -/
theorem position_cap_rejection (st : DBState) (uid : String) (c : Candidate)
    (h1 : rule1_index_cap
      (get_symbol_trades st uid c.symbol (c.strategy.getD ""))
      c.symbol (c.strategy.getD "") = none)
    (h3 : rule3_risk_cap c (get_or_create_portfolio st uid).1.current_value = none)
    (h5 : 5 ≤ (get_active_positions st uid).length) :
    (validate_trade_risk st uid c).1 = .invalid .positionLimit := by
  simp only [validate_trade_risk, h1, rule2_always_none, h3,
    get_or_create_positions]
  simp [rule4_position_cap, h5]

/-- C4 witness: with 5 ACTIVE positions and a small-risk candidate (risk 50,
cap 2000), the rejection carries the position-count reason. -/
theorem position_cap_rejection_witness :
    (validate_trade_risk stFive "u" candSmall).1 = .invalid .positionLimit :=
  position_cap_rejection stFive "u" candSmall
    (rule1_skip _ _ _ (by decide))
    (by norm_num [rule3_risk_cap, get_or_create_portfolio, stFive, candSmall])
    (by norm_num [get_active_positions, stFive, mkPos])

/-- C5: with zero ACTIVE positions but one closed One Hour Setup trade on the
index symbol, the index-concentration rule rejects the candidate with the
generic risk-validation error: the status filter subscripts `t['status']` on
a history dict that has no such key, raising `KeyError`. -/
theorem index_rule_key_error_on_history :
    (get_active_positions stC5 "u").length = 0
    ∧ (validate_trade_risk stC5 "u" candNifty).1 = .invalid (.keyError "status") := by
  constructor
  · norm_num [get_active_positions, stC5]
  · norm_num [validate_trade_risk, get_symbol_trades, rule1_index_cap,
      filterStatusACTIVE, stC5, candNifty, histNifty, idx_NIFTY,
      SymTrade.getStatus]

/-- C6: under the index-concentration rule not firing and fewer than 5 active
positions, validation rejects exactly when
`risk_amount = |entry - stop| * quantity` strictly exceeds
`0.02 * current_value`, and accepts exactly otherwise. -/
theorem risk_cap_exact (st : DBState) (uid : String) (c : Candidate)
    (h1 : rule1_index_cap
      (get_symbol_trades st uid c.symbol (c.strategy.getD ""))
      c.symbol (c.strategy.getD "") = none)
    (h5 : (get_active_positions st uid).length < 5) :
    ((validate_trade_risk st uid c).1 =
        .invalid (.riskCap (|c.entryPrice - c.stopLoss| * (c.quantity : ℚ))
          ((get_or_create_portfolio st uid).1.current_value * (2 / 100)))
      ↔ |c.entryPrice - c.stopLoss| * (c.quantity : ℚ) >
          (get_or_create_portfolio st uid).1.current_value * (2 / 100))
    ∧ ((validate_trade_risk st uid c).1 = .valid
      ↔ ¬(|c.entryPrice - c.stopLoss| * (c.quantity : ℚ) >
          (get_or_create_portfolio st uid).1.current_value * (2 / 100))) := by
  by_cases hr : |c.entryPrice - c.stopLoss| * (c.quantity : ℚ) >
      (get_or_create_portfolio st uid).1.current_value * (2 / 100)
  · have h3 : rule3_risk_cap c (get_or_create_portfolio st uid).1.current_value =
        some (.riskCap (|c.entryPrice - c.stopLoss| * (c.quantity : ℚ))
          ((get_or_create_portfolio st uid).1.current_value * (2 / 100))) := by
      simp only [rule3_risk_cap]
      rw [if_pos hr]
    simp only [validate_trade_risk, h1, rule2_always_none, h3]
    constructor
    · simp [hr]
    · simp [hr]
  · have h3 : rule3_risk_cap c (get_or_create_portfolio st uid).1.current_value =
        none := by
      simp only [rule3_risk_cap]
      rw [if_neg hr]
    have h4 : rule4_position_cap
        (get_active_positions (get_or_create_portfolio st uid).2 uid) = none := by
      rw [get_or_create_positions]
      simp only [rule4_position_cap]
      rw [if_neg (by omega)]
    simp only [validate_trade_risk, h1, rule2_always_none, h3, h4]
    constructor
    · simp [hr]
    · simp [hr]

/-- C6 witness: entry 100, stop 95, qty 10 gives risk amount 50, which is
within 2% of the fresh 100000 portfolio (cap 2000), so the candidate is
accepted. -/
theorem risk_cap_exact_witness :
    |candSmall.entryPrice - candSmall.stopLoss| * (candSmall.quantity : ℚ) = 50
    ∧ (validate_trade_risk DBState.empty "u" candSmall).1 = .valid := by
  constructor
  · norm_num [candSmall]
  · exact (risk_cap_exact DBState.empty "u" candSmall
      (rule1_skip _ _ _ (by decide))
      (by norm_num [get_active_positions, DBState.empty])).2.mpr
      (by norm_num [candSmall, get_or_create_portfolio, DBState.empty])

/-- C7: a close request for an id that is not an active position of the
requesting user fails with `Position not found` and leaves the state
untouched; more generally any failing close (including an injected
persistence failure at the history insert, the delete, the portfolio update
or the commit) leaves no mutation visible. -/
theorem close_failure_leaves_state_unchanged (st : DBState) (uid : String)
    (pid : Nat) (xp : ℚ) (reason : String) (t : Nat)
    (failAt : Option CloseFail) :
    (st.positions.find? (fun p => p.id == pid && p.user_id == uid) = none →
      close_position_tx st uid pid xp reason t failAt =
        (.err "Position not found", st))
    ∧ (∀ msg, (close_position_tx st uid pid xp reason t failAt).1 = .err msg →
      (close_position_tx st uid pid xp reason t failAt).2 = st) := by
  constructor
  · intro hf
    simp [close_position_tx, hf]
  · intro msg hmsg
    simp only [close_position_tx] at hmsg ⊢
    cases hfind : st.positions.find? (fun p => p.id == pid && p.user_id == uid) with
    | none => simp [hfind]
    | some pos =>
        rcases failAt with _ | f
        · simp [hfind] at hmsg
        · cases f <;> simp [hfind] at hmsg ⊢

/-- C7 witness: closing on an empty database reports `Position not found`
and returns the database unchanged. -/
theorem close_failure_leaves_state_unchanged_witness :
    close_position_tx DBState.empty "u" 1 110 "MANUAL" 0 none =
      (.err "Position not found", DBState.empty) :=
  (close_failure_leaves_state_unchanged DBState.empty "u" 1 110 "MANUAL" 0
    none).1 rfl

/-- C8 counterexample: a complete execution request with quantity 0 is not
rejected by any validation — field validation only checks key presence, no
positivity check exists, and the zero-risk candidate then passes the risk
rules, so the trade executes successfully. -/
theorem zero_quantity_passes_validation :
    reqZeroQty.quantity = some 0
    ∧ (api_paper_trading_execute DBState.empty "u" reqZeroQty 1 0).1 = .ok 1 := by
  refine ⟨rfl, ?_⟩
  have h1 : rule1_index_cap
      (get_symbol_trades DBState.empty "u" reqZeroQty.toCandidate.symbol
        (reqZeroQty.toCandidate.strategy.getD ""))
      reqZeroQty.toCandidate.symbol
      (reqZeroQty.toCandidate.strategy.getD "") = none :=
    rule1_skip _ _ _ (by decide)
  have h3 : rule3_risk_cap reqZeroQty.toCandidate
      (get_or_create_portfolio DBState.empty "u").1.current_value = none := by
    norm_num [rule3_risk_cap, reqZeroQty, TradeRequest.toCandidate,
      get_or_create_portfolio, DBState.empty]
  have h4 : rule4_position_cap
      (get_active_positions (get_or_create_portfolio DBState.empty "u").2 "u") =
      none := by
    rw [get_or_create_positions]
    norm_num [rule4_position_cap, get_active_positions, DBState.empty]
  have hfind : required_fields.find? (fun f => !(reqZeroQty.hasField f)) = none := by
    decide
  simp only [api_paper_trading_execute, hfind, execute_paper_trade,
    validate_trade_risk, h1, rule2_always_none, h3, h4]

/-- C8 amended: the executor rejects with a missing-field validation error
exactly when one of the six required keys is absent from the request body;
when all six are present no further field check (in particular no positivity
check) is made and the candidate goes straight to the risk rules. -/
theorem field_validation_presence_only (st : DBState) (uid : String)
    (d : TradeRequest) (newId t : Nat) :
    ((∃ f ∈ required_fields, d.hasField f = false) →
      ∃ g, (api_paper_trading_execute st uid d newId t).1 = .missingField g
        ∧ (api_paper_trading_execute st uid d newId t).2 = st)
    ∧ ((∀ f ∈ required_fields, d.hasField f = true) →
      api_paper_trading_execute st uid d newId t =
        execute_paper_trade st uid d.toCandidate newId t) := by
  constructor
  · rintro ⟨f, hmem, hf⟩
    cases hfind : required_fields.find? (fun g => !(d.hasField g)) with
    | none =>
        have := List.find?_eq_none.mp hfind f hmem
        simp [hf] at this
    | some g =>
        exact ⟨g, by simp [api_paper_trading_execute, hfind],
          by simp [api_paper_trading_execute, hfind]⟩
  · intro hall
    have hfind : required_fields.find? (fun g => !(d.hasField g)) = none := by
      apply List.find?_eq_none.mpr
      intro f hmem
      simp [hall f hmem]
    simp [api_paper_trading_execute, hfind]

/-- C8 witness: a request missing `target` is rejected with a missing-field
error and leaves the state unchanged. -/
theorem field_validation_presence_only_witness :
    ∃ g, (api_paper_trading_execute DBState.empty "u" reqNoTarget 1 0).1 =
        .missingField g
      ∧ (api_paper_trading_execute DBState.empty "u" reqNoTarget 1 0).2 =
        DBState.empty :=
  (field_validation_presence_only DBState.empty "u" reqNoTarget 1 0).1
    ⟨"target", by decide, by decide⟩

/-- C9: in a monitor pass with a freshly fetched price, a BUY position exits
with STOP_LOSS exactly when `price ≤ stop_loss` and (when the stop is not
breached) with TARGET exactly when `price ≥ target`; a SELL position exits
with STOP_LOSS exactly when `price ≥ stop_loss` and (when the stop is not
breached) with TARGET exactly when `price ≤ target`; the stop-loss exit wins
whenever both levels are breached, and each exit closes the position with
the corresponding reason. -/
theorem monitor_exit_rules (st : DBState) (uid : String) (pos : Position)
    (price : ℚ) (time : Nat) :
    (pos.trade_type = "BUY" →
      (check_exit pos.trade_type price pos.stop_loss pos.target = .stopLossHit
        ↔ price ≤ pos.stop_loss))
    ∧ (pos.trade_type = "BUY" → ¬price ≤ pos.stop_loss →
      (check_exit pos.trade_type price pos.stop_loss pos.target = .targetHit
        ↔ price ≥ pos.target))
    ∧ (pos.trade_type = "SELL" →
      (check_exit pos.trade_type price pos.stop_loss pos.target = .stopLossHit
        ↔ price ≥ pos.stop_loss))
    ∧ (pos.trade_type = "SELL" → ¬price ≥ pos.stop_loss →
      (check_exit pos.trade_type price pos.stop_loss pos.target = .targetHit
        ↔ price ≤ pos.target))
    ∧ (check_exit pos.trade_type price pos.stop_loss pos.target = .stopLossHit →
      monitor_position st uid pos price time =
        (close_position (update_position_price st pos.id price) uid pos.id
          price "STOP_LOSS" time).2)
    ∧ (check_exit pos.trade_type price pos.stop_loss pos.target = .targetHit →
      monitor_position st uid pos price time =
        (close_position (update_position_price st pos.id price) uid pos.id
          price "TARGET" time).2) := by
  refine ⟨?_, ?_, ?_, ?_, ?_, ?_⟩
  · intro hb
    by_cases hle : price ≤ pos.stop_loss
    · simp [check_exit, hb, pyUpper_BUY, hle]
    · by_cases hge : price ≥ pos.target <;>
        simp [check_exit, hb, pyUpper_BUY, hle, hge]
  · intro hb hle
    by_cases hge : price ≥ pos.target <;>
      simp [check_exit, hb, pyUpper_BUY, hle, hge]
  · intro hs
    by_cases hge : price ≥ pos.stop_loss
    · simp [check_exit, hs, pyUpper_SELL, hge]
    · by_cases hle : price ≤ pos.target <;>
        simp [check_exit, hs, pyUpper_SELL, hge, hle]
  · intro hs hge
    by_cases hle : price ≤ pos.target <;>
      simp [check_exit, hs, pyUpper_SELL, hge, hle]
  · intro hc
    simp [monitor_position, hc]
  · intro hc
    simp [monitor_position, hc]

/-- C9 witness: the sample BUY position (stop 95) exits with STOP_LOSS at
price 95. -/
theorem monitor_exit_rules_witness :
    check_exit posA.trade_type 95 posA.stop_loss posA.target = .stopLossHit :=
  ((monitor_exit_rules DBState.empty "u" posA 95 0).1 rfl).mpr
    (by norm_num [posA])

/-- C10 counterexample: on a zero-range candle with close above open, the
scanner returns `Strong Bullish`, not the plain `Bullish` the claim
states. -/
theorem zero_range_counterexample :
    determine_close_strength 100 101 100 100 = "Strong Bullish"
    ∧ determine_close_strength 100 101 100 100 ≠ "Bullish" := by
  have h : determine_close_strength 100 101 100 100 = "Strong Bullish" := by
    norm_num [determine_close_strength]
  exact ⟨h, by rw [h]; decide⟩

/-- C10 amended: on a candle with `high - low = 0`, the classification is
`Strong Bullish` when close is above open, `Strong Bearish` when close is
below open, and `Neutral` when they are equal. -/
theorem zero_range_strength (o c h l : ℚ) (hr : h - l = 0) :
    (c > o → determine_close_strength o c h l = "Strong Bullish")
    ∧ (c < o → determine_close_strength o c h l = "Strong Bearish")
    ∧ (c = o → determine_close_strength o c h l = "Neutral") := by
  refine ⟨?_, ?_, ?_⟩
  · intro hc
    simp [determine_close_strength, hr, hc]
  · intro hc
    simp [determine_close_strength, hr, hc, lt_asymm hc]
  · intro hc
    subst hc
    simp [determine_close_strength, hr]

/-- C10 witness: the three zero-range outcomes at concrete candles. -/
theorem zero_range_strength_witness :
    determine_close_strength 100 101 100 100 = "Strong Bullish"
    ∧ determine_close_strength 100 99 100 100 = "Strong Bearish"
    ∧ determine_close_strength 100 100 100 100 = "Neutral" :=
  ⟨(zero_range_strength 100 101 100 100 (by norm_num)).1 (by norm_num),
   (zero_range_strength 100 99 100 100 (by norm_num)).2.1 (by norm_num),
   (zero_range_strength 100 100 100 100 (by norm_num)).2.2 rfl⟩

end Algo
